import Mathlib

/-!
Shallow embedding of the rtnet-stack core (src/examples/tcp_http_client/main.c,
whose second compilation unit is the stack implementation `rtnet_ipv6.c`
together with the host-build public API stubs, against the declarations in
`rtnet_stack.h`).

Modelling conventions:
* C byte arrays become `List Nat` whose elements are the byte values; an IPv6
  address is the 16-element list of its bytes, a MAC address the 6-element list.
* Nullable pointer parameters become `Option _` (or a `Bool` presence flag when
  the pointee's contents are never inspected by the code, as for the UDP
  payload and the RX frame bytes).
* `uint16_t` / `uint32_t` arithmetic is `Nat` arithmetic reduced `% 2^16` /
  `% 2^32` at every operation that can overflow; unsigned subtraction
  `now - then` on `uint32_t` timestamps is `sub32`.
* The platform clock `RTNET_GetTimeMs` is passed in explicitly as a `now`
  argument to every operation that reads it (successive reads inside one call
  are modelled as the same instant; no modelled behaviour depends on the
  difference).
* Functions returning an error code and mutating the global context
  `g_RTNET_Ctx` become functions `Context → ... → RTNET_Error × Context`.
* Fields of the C structs that no modelled code path ever reads or writes
  (the `data` payload array of a buffer, the unused `netmask` of a route
  entry, the `rx_buffers` and `mdns_cache` pools, the neighbor `state` tag)
  are omitted from the corresponding structures.
-/

namespace RTNet

/-- 16 raw bytes of an IPv6 address (`RTNET_IPv6Addr_t.addr`). -/
abbrev IPv6Addr := List Nat

/-- 6 raw bytes of a MAC address (`RTNET_MACAddr_t.addr`). -/
abbrev MACAddr := List Nat

/-- `RTNET_Error_t` from rtnet_stack.h. -/
inductive RTNET_Error where
  | OK
  | INVALID_PARAM
  | NO_BUFFER
  | NO_ROUTE
  | CHECKSUM
  | TIMEOUT
  | CONNECTION
  | OVERFLOW
deriving Repr, DecidableEq

/-- `RTNET_TCPState_t` from rtnet_stack.h. -/
inductive TCPState where
  | CLOSED
  | LISTEN
  | SYN_SENT
  | SYN_RCVD
  | ESTABLISHED
  | FIN_WAIT
  | CLOSE_WAIT
  | CLOSING
  | TIME_WAIT
deriving Repr, DecidableEq

/-- `RTNET_Buffer_t` (the 1536-byte `data` array is never inspected by the
modelled code, so it is omitted). -/
structure Buffer where
  length : Nat
  offset : Nat
  qos_priority : Nat
  in_use : Bool
  timestamp_ms : Nat
deriving Repr, DecidableEq

/-- `RTNET_TCPConnection_t`. -/
structure TCPConnection where
  local_addr : IPv6Addr
  remote_addr : IPv6Addr
  local_port : Nat
  remote_port : Nat
  state : TCPState
  send_next : Nat
  send_unack : Nat
  recv_next : Nat
  send_window : Nat
  recv_window : Nat
  retransmit_count : Nat
  last_activity_ms : Nat
  in_use : Bool
deriving Repr, DecidableEq

/-- `RTNET_RouteEntry_t` (the declared `netmask` field is never read or
written by any code in the repository and is omitted). -/
structure RouteEntry where
  destination : IPv6Addr
  next_hop : IPv6Addr
  prefix_len : Nat
  metric : Nat
  last_used_ms : Nat
  valid : Bool
deriving Repr, DecidableEq

/-- `RTNET_NeighborEntry_t` (the reachability `state` tag is never used). -/
structure NeighborEntry where
  ipv6_addr : IPv6Addr
  mac_addr : MACAddr
  last_confirmed_ms : Nat
  valid : Bool
deriving Repr, DecidableEq

/-- `RTNET_Statistics_t`. -/
structure Statistics where
  rx_packets : Nat
  tx_packets : Nat
  rx_errors : Nat
  tx_errors : Nat
  rx_dropped : Nat
  tx_dropped : Nat
  checksum_errors : Nat
  routing_errors : Nat
deriving Repr, DecidableEq

/-- `RTNET_Context_t` (`rx_buffers` and `mdns_cache` are untouched by every
modelled operation and are omitted). -/
structure Context where
  tx_buffers : List Buffer
  tcp_connections : List TCPConnection
  routing_table : List RouteEntry
  neighbor_cache : List NeighborEntry
  local_ipv6 : IPv6Addr
  local_mac : MACAddr
  stats : Statistics
  next_ephemeral_port : Nat
  sequence_number : Nat
  initialized : Bool
deriving Repr, DecidableEq

/-- Capacity constants from rtnet_stack.h. -/
def RTNET_MAX_TX_BUFFERS : Nat := 8
def RTNET_MAX_TCP_CONNECTIONS : Nat := 4
def RTNET_MAX_ROUTING_ENTRIES : Nat := 32
def RTNET_MAX_NEIGHBOR_CACHE : Nat := 16
def RTNET_MTU_SIZE : Nat := 1500
def RTNET_TCP_TIMEOUT_MS : Nat := 5000

/-- `uint32_t` increment of a statistics counter (`c++`). -/
def inc32 (x : Nat) : Nat := (x + 1) % 2 ^ 32

/-- `uint32_t` subtraction `a - b` (wrap-around difference of timestamps). -/
def sub32 (a b : Nat) : Nat := (a % 2 ^ 32 + 2 ^ 32 - b % 2 ^ 32) % 2 ^ 32

/-- All-zero IPv6 address (result of `memset(...,0,16)`). -/
def zeroAddr : IPv6Addr := List.replicate 16 0

/-- All-zero MAC address. -/
def zeroMac : MACAddr := List.replicate 6 0

/-- A zeroed `RTNET_Buffer_t`. -/
def zeroBuffer : Buffer :=
  { length := 0, offset := 0, qos_priority := 0, in_use := false, timestamp_ms := 0 }

/-- A zeroed `RTNET_TCPConnection_t` (enum value 0 is `RTNET_TCP_CLOSED`). -/
def zeroConn : TCPConnection :=
  { local_addr := zeroAddr, remote_addr := zeroAddr, local_port := 0,
    remote_port := 0, state := .CLOSED, send_next := 0, send_unack := 0,
    recv_next := 0, send_window := 0, recv_window := 0, retransmit_count := 0,
    last_activity_ms := 0, in_use := false }

/-- A zeroed `RTNET_RouteEntry_t`. -/
def zeroRoute : RouteEntry :=
  { destination := zeroAddr, next_hop := zeroAddr, prefix_len := 0, metric := 0,
    last_used_ms := 0, valid := false }

/-- A zeroed `RTNET_NeighborEntry_t`. -/
def zeroNeighbor : NeighborEntry :=
  { ipv6_addr := zeroAddr, mac_addr := zeroMac, last_confirmed_ms := 0, valid := false }

/-- All-zero statistics block. -/
def zeroStats : Statistics :=
  { rx_packets := 0, tx_packets := 0, rx_errors := 0, tx_errors := 0,
    rx_dropped := 0, tx_dropped := 0, checksum_errors := 0, routing_errors := 0 }

/-- The context after `memset(&g_RTNET_Ctx, 0, sizeof(RTNET_Context_t))`. -/
def zeroCtx : Context :=
  { tx_buffers := List.replicate RTNET_MAX_TX_BUFFERS zeroBuffer,
    tcp_connections := List.replicate RTNET_MAX_TCP_CONNECTIONS zeroConn,
    routing_table := List.replicate RTNET_MAX_ROUTING_ENTRIES zeroRoute,
    neighbor_cache := List.replicate RTNET_MAX_NEIGHBOR_CACHE zeroNeighbor,
    local_ipv6 := zeroAddr, local_mac := zeroMac, stats := zeroStats,
    next_ephemeral_port := 0, sequence_number := 0, initialized := false }

/-- `RTNET_IPv6_PrefixMatch` (main.c lines 125-150): compare `prefix_len / 8`
full bytes with `memcmp`, then mask the remaining `prefix_len % 8` bits of the
next byte with `(uint8_t)(0xFF << (8 - remainder_bits))`.  The C function also
returns `false` on a NULL argument; callers in the modelled code always pass
valid pointers, so only the `prefix_len > 128` guard is kept. -/
def RTNET_IPv6_PrefixMatch (addr pfx : IPv6Addr) (prefix_len : Nat) : Bool :=
  if prefix_len > 128 then false
  else
    let full_bytes := prefix_len / 8
    let remainder_bits := prefix_len % 8
    if addr.take full_bytes ≠ pfx.take full_bytes then false
    else if remainder_bits > 0 then
      let mask := (0xFF <<< (8 - remainder_bits)) % 256
      decide ((addr.getD full_bytes 0) &&& mask = (pfx.getD full_bytes 0) &&& mask)
    else true

/-- The scan loop of `RTNET_FindRoute` (main.c lines 246-262), carrying the
running champion as an optional index together with `best_prefix_len` and
`best_metric`.  `i` is the index of the head of the remaining list. -/
def findRouteGo (dest : IPv6Addr) :
    List RouteEntry → Nat → Option Nat → Nat → Nat → Option Nat
  | [], _, best, _, _ => best
  | e :: rest, i, best, bestLen, bestMetric =>
    if e.valid = true ∧ RTNET_IPv6_PrefixMatch dest e.destination e.prefix_len = true ∧
        (e.prefix_len > bestLen ∨ (e.prefix_len = bestLen ∧ e.metric < bestMetric))
    then findRouteGo dest rest (i + 1) (some i) e.prefix_len e.metric
    else findRouteGo dest rest (i + 1) best bestLen bestMetric

/-- `RTNET_FindRoute` (main.c lines 236-265): longest-prefix scan over the
routing table starting from `best_prefix_len = 0`, `best_metric = UINT16_MAX`.
The returned pointer is modelled as the index of the winning entry.  The NULL
guard on `dest_addr` is dropped: modelled callers pass valid pointers. -/
def RTNET_FindRoute (ctx : Context) (dest : IPv6Addr) : Option Nat :=
  findRouteGo dest ctx.routing_table 0 none 0 65535

/-- The slot-filling loop of `RTNET_AddRoute` (main.c lines 433-452): find the
first invalid slot and fill it; `none` when every slot is valid. -/
def addRouteGo (dst nh : IPv6Addr) (plen metric now : Nat) :
    List RouteEntry → Option (List RouteEntry)
  | [] => none
  | e :: rest =>
    if e.valid then (addRouteGo dst nh plen metric now rest).map (e :: ·)
    else some ({ destination := dst, next_hop := nh, prefix_len := plen,
                 metric := metric, last_used_ms := now % 2 ^ 32, valid := true } :: rest)

/-- `RTNET_AddRoute` (main.c lines 423-455). -/
def RTNET_AddRoute (ctx : Context) (destination : Option IPv6Addr)
    (prefix_len : Nat) (next_hop : Option IPv6Addr) (metric : Nat) (now : Nat) :
    RTNET_Error × Context :=
  if destination = none ∨ prefix_len > 128 then (.INVALID_PARAM, ctx)
  else
    match addRouteGo (destination.getD zeroAddr) (next_hop.getD zeroAddr)
        prefix_len metric now ctx.routing_table with
    | some table => (.OK, { ctx with routing_table := table })
    | none => (.OVERFLOW, ctx)

/-- The two-byte link-local prefix `fe80::` inserted by `RTNET_Initialize`
(main.c lines 413-415). -/
def linkLocalPrefix : IPv6Addr := 0xFE :: 0x80 :: List.replicate 14 0

/-- `RTNET_Initialize` (main.c lines 392-421): zero the whole context, copy
the addresses, seed the ephemeral-port counter at 49152 and the sequence
number from the clock, insert the `fe80::/10` metric-1 route, set
`initialized`.  On a NULL argument the context is untouched. -/
def RTNET_Initialize (local_ipv6 : Option IPv6Addr) (local_mac : Option MACAddr)
    (now : Nat) (ctx : Context) : RTNET_Error × Context :=
  if local_ipv6 = none ∨ local_mac = none then (.INVALID_PARAM, ctx)
  else
    let c0 : Context :=
      { zeroCtx with local_ipv6 := local_ipv6.getD zeroAddr,
                     local_mac := local_mac.getD zeroMac,
                     next_ephemeral_port := 49152, sequence_number := now % 2 ^ 32 }
    let c1 := (RTNET_AddRoute c0 (some linkLocalPrefix) 10 none 1 now).2
    (.OK, { c1 with initialized := true })

/-- Aging of one neighbor entry by `RTNET_PeriodicTask` (main.c lines 475-480). -/
def ageNeighbor (now : Nat) (e : NeighborEntry) : NeighborEntry :=
  if e.valid = true ∧ sub32 now e.last_confirmed_ms > 30000
  then { e with valid := false } else e

/-- Aging of one route entry by `RTNET_PeriodicTask` (main.c lines 483-488). -/
def ageRoute (now : Nat) (e : RouteEntry) : RouteEntry :=
  if e.valid = true ∧ sub32 now e.last_used_ms > 300000
  then { e with valid := false } else e

/-- Timeout sweep of one TCP connection by `RTNET_PeriodicTask`
(main.c lines 491-497). -/
def ageConn (now : Nat) (c : TCPConnection) : TCPConnection :=
  if c.in_use = true ∧ sub32 now c.last_activity_ms > RTNET_TCP_TIMEOUT_MS
  then { c with state := .CLOSED, in_use := false } else c

/-- `RTNET_PeriodicTask` (main.c lines 470-498). -/
def RTNET_PeriodicTask (now : Nat) (ctx : Context) : Context :=
  { ctx with
    neighbor_cache := ctx.neighbor_cache.map (ageNeighbor now),
    routing_table := ctx.routing_table.map (ageRoute now),
    tcp_connections := ctx.tcp_connections.map (ageConn now) }

/-- `RTNET_ProcessRxPacket` (main.c lines 502-517).  The frame bytes are never
inspected, so the `data` pointer is modelled by a presence flag. -/
def RTNET_ProcessRxPacket (data_present : Bool) (length : Nat) (ctx : Context) :
    RTNET_Error × Context :=
  if data_present = false ∨ length = 0 then (.INVALID_PARAM, ctx)
  else
    let ctx1 :=
      { ctx with stats := { ctx.stats with rx_packets := inc32 ctx.stats.rx_packets } }
    if length < 14 + 40 then (.INVALID_PARAM, ctx1)
    else (.CHECKSUM, ctx1)

/-- The first-free scan of the TX pool in `RTNET_UDP_Send`
(main.c lines 555-561), returning the index of the first buffer with
`in_use = false`. -/
def firstFreeBuf : List Buffer → Nat → Option Nat
  | [], _ => none
  | b :: rest, i => if b.in_use then firstFreeBuf rest (i + 1) else some i

/-- The ephemeral auto-assign block of `RTNET_UDP_Send` (main.c lines
540-546): `src_port = next_ephemeral_port++` on `uint16_t`, resetting the
counter to 49152 when its post-increment value is 0. -/
def udpAutoAssign (ctx : Context) (src_port : Nat) : Context :=
  if src_port = 0 then
    let p := (ctx.next_ephemeral_port + 1) % 2 ^ 16
    { ctx with next_ephemeral_port := if p = 0 then 49152 else p }
  else ctx

/-- `RTNET_UDP_Send` (main.c lines 519-577).  The payload bytes are never
inspected, so `payload` is a presence flag with a separate `payload_len`.
A route miss increments `routing_errors`; a full TX pool increments
`tx_dropped`; on success the chosen buffer is marked `in_use` with the
payload length and QoS and `tx_packets` is incremented — the buffer is never
freed and no hardware transmit hook is invoked by this code. -/
def RTNET_UDP_Send (ctx : Context) (dest_addr : Option IPv6Addr)
    (dest_port src_port : Nat) (payload : Bool) (payload_len qos_priority : Nat) :
    RTNET_Error × Context :=
  if ctx.initialized = false then (.INVALID_PARAM, ctx)
  else if dest_addr = none ∨ dest_port = 0 ∨ payload = false ∨ payload_len = 0
  then (.INVALID_PARAM, ctx)
  else if payload_len > RTNET_MTU_SIZE then (.INVALID_PARAM, ctx)
  else
    let dest := dest_addr.getD zeroAddr
    let ctx1 := udpAutoAssign ctx src_port
    match RTNET_FindRoute ctx1 dest with
      | none =>
        (.NO_ROUTE, { ctx1 with stats :=
          { ctx1.stats with routing_errors := inc32 ctx1.stats.routing_errors } })
      | some _ =>
        match firstFreeBuf ctx1.tx_buffers 0 with
        | none =>
          (.NO_BUFFER, { ctx1 with stats :=
            { ctx1.stats with tx_dropped := inc32 ctx1.stats.tx_dropped } })
        | some i =>
          let buf := ctx1.tx_buffers.getD i zeroBuffer
          (.OK, { ctx1 with
            tx_buffers := ctx1.tx_buffers.set i
              { buf with in_use := true, length := payload_len,
                         qos_priority := qos_priority },
            stats := { ctx1.stats with tx_packets := inc32 ctx1.stats.tx_packets } })

/-- The first-free scan of the TCP connection table in `RTNET_TCP_Connect`
(main.c lines 598-600). -/
def firstFreeConn : List TCPConnection → Nat → Option Nat
  | [], _ => none
  | c :: rest, i => if c.in_use then firstFreeConn rest (i + 1) else some i

/-- `RTNET_TCP_Connect` (main.c lines 579-615): validate, route-check, fill
the first free slot (zeroed, then populated), assign the local port from
`next_ephemeral_port++` with NO wrap-to-49152 check (unlike `RTNET_UDP_Send`),
set the state directly to `ESTABLISHED`, return the slot index through
`connection_id`.  The out-pointer is modelled by a presence flag, and the
assigned index is returned alongside the error code. -/
def RTNET_TCP_Connect (ctx : Context) (dest_addr : Option IPv6Addr)
    (dest_port : Nat) (connection_id : Bool) (now : Nat) :
    RTNET_Error × Option Nat × Context :=
  if ctx.initialized = false then (.INVALID_PARAM, none, ctx)
  else if dest_addr = none ∨ dest_port = 0 ∨ connection_id = false
  then (.INVALID_PARAM, none, ctx)
  else
    let dest := dest_addr.getD zeroAddr
    match RTNET_FindRoute ctx dest with
    | none =>
      (.NO_ROUTE, none, { ctx with stats :=
        { ctx.stats with routing_errors := inc32 ctx.stats.routing_errors } })
    | some _ =>
      match firstFreeConn ctx.tcp_connections 0 with
      | none => (.NO_BUFFER, none, ctx)
      | some i =>
        let conn : TCPConnection :=
          { zeroConn with
            local_addr := ctx.local_ipv6, remote_addr := dest,
            local_port := ctx.next_ephemeral_port % 2 ^ 16,
            remote_port := dest_port, state := .ESTABLISHED,
            last_activity_ms := now % 2 ^ 32, in_use := true }
        (.OK, some i,
          { ctx with
            tcp_connections := ctx.tcp_connections.set i conn,
            next_ephemeral_port := (ctx.next_ephemeral_port + 1) % 2 ^ 16 })

/-- `RTNET_TCP_Send` (main.c lines 617-638). -/
def RTNET_TCP_Send (ctx : Context) (connection_id : Nat) (data : Bool)
    (length : Nat) (now : Nat) : RTNET_Error × Context :=
  if data = false ∨ length = 0 then (.INVALID_PARAM, ctx)
  else if connection_id ≥ RTNET_MAX_TCP_CONNECTIONS then (.INVALID_PARAM, ctx)
  else
    let conn := ctx.tcp_connections.getD connection_id zeroConn
    if conn.in_use = false then (.CONNECTION, ctx)
    else
      (.OK, { ctx with
        tcp_connections := ctx.tcp_connections.set connection_id
          { conn with last_activity_ms := now % 2 ^ 32 },
        stats := { ctx.stats with tx_packets := inc32 ctx.stats.tx_packets } })

/-- `RTNET_TCP_Close` (main.c lines 640-654). -/
def RTNET_TCP_Close (ctx : Context) (connection_id : Nat) :
    RTNET_Error × Context :=
  if connection_id ≥ RTNET_MAX_TCP_CONNECTIONS then (.INVALID_PARAM, ctx)
  else
    let conn := ctx.tcp_connections.getD connection_id zeroConn
    if conn.in_use = false then (.CONNECTION, ctx)
    else
      (.OK, { ctx with
        tcp_connections := ctx.tcp_connections.set connection_id
          { conn with in_use := false, state := .CLOSED } })

/-- `RTNET_mDNS_Announce` (main.c lines 670-681): parameter checks, then
`tx_packets++`. -/
def RTNET_mDNS_Announce (ctx : Context) (service_name : Bool)
    (port ttl_sec : Nat) : RTNET_Error × Context :=
  if service_name = false ∨ port = 0 ∨ ttl_sec = 0 then (.INVALID_PARAM, ctx)
  else
    (.OK, { ctx with stats :=
      { ctx.stats with tx_packets := inc32 ctx.stats.tx_packets } })

/-- `RTNET_mDNS_Query` (main.c lines 656-668): validates pointers, zeroes the
caller's result record (not part of the context) and reports a timeout; the
context is untouched. -/
def RTNET_mDNS_Query (ctx : Context) (service_name result : Bool) :
    RTNET_Error × Context :=
  if service_name = false ∨ result = false then (.INVALID_PARAM, ctx)
  else (.TIMEOUT, ctx)

/-- `RTNET_GetStatistics` (main.c lines 457-468): copies the counters out
under the critical section; the context is untouched. -/
def RTNET_GetStatistics (ctx : Context) (stats : Bool) :
    RTNET_Error × Option Statistics × Context :=
  if stats = false then (.INVALID_PARAM, none, ctx)
  else (.OK, some ctx.stats, ctx)

/-! ## Concrete demonstration inputs shared by the concrete theorems -/

/-- The example local address `fe80::2` from the tcp_http_client demo. -/
def demoIp : IPv6Addr := 0xFE :: 0x80 :: List.replicate 13 0 ++ [2]

/-- The example local MAC `00:AA:BB:CC:DD:EE` from the tcp_http_client demo. -/
def demoMac : MACAddr := [0x00, 0xAA, 0xBB, 0xCC, 0xDD, 0xEE]

/-- A link-local destination `fe80::1`, matched by the route the
initialization inserts. -/
def demoDest : IPv6Addr := 0xFE :: 0x80 :: List.replicate 13 0 ++ [1]

/-- The context right after `RTNET_Initialize(&LOCAL_IP, &LOCAL_MAC)` with the
platform clock at 0. -/
def demoCtx : Context := (RTNET_Initialize (some demoIp) (some demoMac) 0 zeroCtx).2

/-! ## Proof scaffolding definitions -/

/-- The scan loop of `RTNET_FindRoute` keeping the full accumulator
`(best_match, best_prefix_len, best_metric)` — proof scaffolding for the
lemmas about `findRouteGo`, which forgets the final key. -/
def findRouteFull (dest : IPv6Addr) :
    List RouteEntry → Nat → Option Nat → Nat → Nat → Option Nat × Nat × Nat
  | [], _, best, L, M => (best, L, M)
  | e :: rest, i, best, L, M =>
    if e.valid = true ∧ RTNET_IPv6_PrefixMatch dest e.destination e.prefix_len = true ∧
        (e.prefix_len > L ∨ (e.prefix_len = L ∧ e.metric < M))
    then findRouteFull dest rest (i + 1) (some i) e.prefix_len e.metric
    else findRouteFull dest rest (i + 1) best L M

/-- Key order of the scan: `(L', M')` is at least as good as `(L, M)` when
the prefix is strictly longer, or equal with a metric no larger. -/
def keyGE (L' M' L M : Nat) : Prop := L < L' ∨ (L = L' ∧ M' ≤ M)

/-- A context whose routing table holds a single valid entry that matches
every destination (prefix length 0) but has metric `UINT16_MAX`. -/
def c4Ctx : Context :=
  { zeroCtx with
    routing_table :=
      { zeroRoute with valid := true, metric := 65535 }
        :: List.replicate 31 zeroRoute,
    initialized := true }

/-- One `tcp_connect` to `fe80::1` port 80 followed by `tcp_close(0)` — the
pair of public operations used to advance the ephemeral-port counter by one
without consuming a connection slot. -/
def connectCloseStep (s : Context) : Context :=
  (RTNET_TCP_Close (RTNET_TCP_Connect s (some demoDest) 80 true 0).2.2 0).2

/-- State invariant maintained by iterating `connectCloseStep` from the
freshly initialized demo context: the context stays initialized with the
link-local route, slot 0 free, and a counter that has advanced `k` times
(`uint16_t` arithmetic, no wrap-to-49152 because `tcp_connect` lacks it). -/
def C3inv (k : Nat) (s : Context) : Prop :=
  s.initialized = true ∧ s.routing_table = demoCtx.routing_table ∧
  s.local_ipv6 = demoCtx.local_ipv6 ∧
  (∃ c0 : TCPConnection, c0.in_use = false ∧
    s.tcp_connections = c0 :: List.replicate 3 zeroConn) ∧
  s.next_ephemeral_port = (49152 + k) % 65536

/-- One invocation of any state-changing public operation, with its
arguments.  `reinit` is `RTNET_Initialize`, which the API allows at any
time. -/
inductive Op where
  | reinit (ip : Option IPv6Addr) (mac : Option MACAddr) (now : Nat)
  | addRoute (dst : Option IPv6Addr) (plen : Nat) (nh : Option IPv6Addr)
      (metric now : Nat)
  | udpSend (dest : Option IPv6Addr) (dport sport : Nat) (payload : Bool)
      (plen qos : Nat)
  | tcpConnect (dest : Option IPv6Addr) (dport : Nat) (cid : Bool) (now : Nat)
  | tcpSend (cid : Nat) (data : Bool) (len now : Nat)
  | tcpClose (cid : Nat)
  | processRx (data : Bool) (len : Nat)
  | periodic (now : Nat)
  | mdnsQuery (name res : Bool)
  | mdnsAnnounce (name : Bool) (port ttl : Nat)
  | getStats (ptr : Bool)

/-- The state transformer of each public operation (return values dropped). -/
def applyOp : Op → Context → Context
  | .reinit ip mac now, s => (RTNET_Initialize ip mac now s).2
  | .addRoute dst plen nh metric now, s => (RTNET_AddRoute s dst plen nh metric now).2
  | .udpSend dest dport sport payload plen qos, s =>
      (RTNET_UDP_Send s dest dport sport payload plen qos).2
  | .tcpConnect dest dport cid now, s => (RTNET_TCP_Connect s dest dport cid now).2.2
  | .tcpSend cid data len now, s => (RTNET_TCP_Send s cid data len now).2
  | .tcpClose cid, s => (RTNET_TCP_Close s cid).2
  | .processRx data len, s => (RTNET_ProcessRxPacket data len s).2
  | .periodic now, s => RTNET_PeriodicTask now s
  | .mdnsQuery name res, s => (RTNET_mDNS_Query s name res).2
  | .mdnsAnnounce name port ttl, s => (RTNET_mDNS_Announce s name port ttl).2
  | .getStats ptr, s => (RTNET_GetStatistics s ptr).2.2

/-- Contexts reachable from a fresh successful initialization through any
sequence of public operations. -/
inductive Reachable : Context → Prop where
  | init (ip : IPv6Addr) (mac : MACAddr) (now : Nat) :
      Reachable (RTNET_Initialize (some ip) (some mac) now zeroCtx).2
  | step (o : Op) {s : Context} : Reachable s → Reachable (applyOp o s)

/-- Per-slot invariant: an occupied slot is `ESTABLISHED`, a free one is
`CLOSED`. -/
def ConnInv (c : TCPConnection) : Prop :=
  (c.in_use = true → c.state = .ESTABLISHED) ∧
  (c.in_use = false → c.state = .CLOSED)

/-! ## Helper lemmas -/

/-- Reading back the element just written by `List.set`. -/
theorem getD_set_self {α : Type} (l : List α) (i : Nat) (a d : α)
    (h : i < l.length) : (l.set i a).getD i d = a := by
  induction l generalizing i with
  | nil => simp at h
  | cons x xs ih =>
    cases i with
    | zero => simp [List.getD]
    | succ n =>
      simp only [List.set, List.getD, List.get?]
      exact ih n (by simpa using h)

/-- `firstFreeBuf` returns an index inside the list (relative to the start
counter `i`). -/
theorem firstFreeBuf_lt (l : List Buffer) (i j : Nat)
    (h : firstFreeBuf l i = some j) : i ≤ j ∧ j < i + l.length := by
  induction l generalizing i with
  | nil => simp [firstFreeBuf] at h
  | cons b rest ih =>
    by_cases hb : b.in_use
    · simp only [firstFreeBuf, hb, if_true] at h
      have := ih (i + 1) h
      constructor <;> [omega; (simp only [List.length_cons]; omega)]
    · simp only [firstFreeBuf, hb, if_false] at h
      cases h
      constructor <;> simp

theorem firstFreeConn_lt (l : List TCPConnection) (i j : Nat)
    (h : firstFreeConn l i = some j) : i ≤ j ∧ j < i + l.length := by
  induction l generalizing i with
  | nil => simp [firstFreeConn] at h
  | cons c rest ih =>
    by_cases hc : c.in_use
    · simp only [firstFreeConn, hc, if_true] at h
      have := ih (i + 1) h
      constructor <;> [omega; (simp only [List.length_cons]; omega)]
    · simp only [firstFreeConn, hc, if_false] at h
      cases h
      constructor <;> simp

theorem mem_set_cases {α : Type} (l : List α) (n : Nat) (b a : α)
    (h : a ∈ l.set n b) : a ∈ l ∨ a = b := by
  induction l generalizing n with
  | nil => simp at h
  | cons x xs ih =>
    cases n with
    | zero =>
      rcases List.mem_cons.1 h with h1 | h1
      · right; exact h1
      · left; exact List.mem_cons_of_mem _ h1
    | succ m =>
      rcases List.mem_cons.1 h with h1 | h1
      · left; subst h1; exact List.mem_cons_self _ _
      · rcases ih m h1 with h2 | h2
        · left; exact List.mem_cons_of_mem _ h2
        · right; exact h2

theorem getD_mem_or {α : Type} (l : List α) (i : Nat) (d : α) :
    l.getD i d ∈ l ∨ l.getD i d = d := by
  induction l generalizing i with
  | nil => right; rfl
  | cons x xs ih =>
    cases i with
    | zero => left; simp [List.getD_cons_zero]
    | succ n =>
      rw [List.getD_cons_succ]
      rcases ih n with h | h
      · left; exact List.mem_cons_of_mem _ h
      · right; exact h

theorem udpAutoAssign_routing_table (ctx : Context) (sp : Nat) :
    (udpAutoAssign ctx sp).routing_table = ctx.routing_table := by
  unfold udpAutoAssign; split <;> rfl

theorem udpAutoAssign_tx_buffers (ctx : Context) (sp : Nat) :
    (udpAutoAssign ctx sp).tx_buffers = ctx.tx_buffers := by
  unfold udpAutoAssign; split <;> rfl

theorem udpAutoAssign_stats (ctx : Context) (sp : Nat) :
    (udpAutoAssign ctx sp).stats = ctx.stats := by
  unfold udpAutoAssign; split <;> rfl

theorem udpAutoAssign_tcp (ctx : Context) (sp : Nat) :
    (udpAutoAssign ctx sp).tcp_connections = ctx.tcp_connections := by
  unfold udpAutoAssign; split <;> rfl

theorem findRoute_udpAutoAssign (ctx : Context) (sp : Nat) (d : IPv6Addr) :
    RTNET_FindRoute (udpAutoAssign ctx sp) d = RTNET_FindRoute ctx d := by
  unfold RTNET_FindRoute; rw [udpAutoAssign_routing_table]

theorem findRoute_eq_of_table (c c' : Context)
    (h : c.routing_table = c'.routing_table) (d : IPv6Addr) :
    RTNET_FindRoute c d = RTNET_FindRoute c' d := by
  unfold RTNET_FindRoute; rw [h]

theorem udpSend_ok (ctx : Context) (dest : IPv6Addr) (dport sport plen qos r i : Nat)
    (hinit : ctx.initialized = true) (hdp : dport ≠ 0)
    (h1 : 1 ≤ plen) (h2 : plen ≤ 1500)
    (hr : RTNET_FindRoute ctx dest = some r)
    (hb : firstFreeBuf ctx.tx_buffers 0 = some i) :
    RTNET_UDP_Send ctx (some dest) dport sport true plen qos =
      (.OK, { udpAutoAssign ctx sport with
              tx_buffers := ctx.tx_buffers.set i
                { ctx.tx_buffers.getD i zeroBuffer with
                  in_use := true, length := plen, qos_priority := qos },
              stats := { ctx.stats with
                tx_packets := inc32 ctx.stats.tx_packets } }) := by
  have h0 : plen ≠ 0 := by omega
  have hmtu : ¬ plen > RTNET_MTU_SIZE := by simp [RTNET_MTU_SIZE]; omega
  unfold RTNET_UDP_Send
  rw [if_neg (by simp [hinit]), if_neg (by simp [hdp, h0]), if_neg hmtu]
  simp only [Option.getD_some, findRoute_udpAutoAssign, hr, udpAutoAssign_tx_buffers,
    udpAutoAssign_stats, hb]

theorem udpSend_invalid_iff (ctx : Context) (dest : Option IPv6Addr)
    (dport sport : Nat) (pl : Bool) (plen qos : Nat) :
    (RTNET_UDP_Send ctx dest dport sport pl plen qos).1 = .INVALID_PARAM ↔
      (ctx.initialized = false ∨ dest = none ∨ pl = false ∨ dport = 0 ∨
       plen = 0 ∨ plen > RTNET_MTU_SIZE) := by
  unfold RTNET_UDP_Send
  by_cases hinit : ctx.initialized = false
  · simp [hinit]
  · rw [if_neg hinit]
    by_cases hg : dest = none ∨ dport = 0 ∨ pl = false ∨ plen = 0
    · rw [if_pos hg]
      simp only [true_iff]
      tauto
    · rw [if_neg hg]
      push_neg at hg
      obtain ⟨hd, hdp, hpl, hp0⟩ := hg
      by_cases hm : plen > RTNET_MTU_SIZE
      · rw [if_pos hm]
        simp only [true_iff]
        tauto
      · rw [if_neg hm]
        rcases hfr : RTNET_FindRoute (udpAutoAssign ctx sport) (dest.getD zeroAddr)
          with _ | v
        · simp only [hfr]
          simp [hinit, hd, hdp, hpl, hp0, hm]
        · simp only [hfr]
          rcases hfb : firstFreeBuf (udpAutoAssign ctx sport).tx_buffers 0 with _ | i
          · simp only [hfb]
            simp [hinit, hd, hdp, hpl, hp0, hm]
          · simp only [hfb]
            simp [hinit, hd, hdp, hpl, hp0, hm]

theorem udpSend_tcp (ctx : Context) (dest : Option IPv6Addr)
    (dport sport : Nat) (payload : Bool) (plen qos : Nat) :
    (RTNET_UDP_Send ctx dest dport sport payload plen qos).2.tcp_connections
      = ctx.tcp_connections := by
  unfold RTNET_UDP_Send
  repeat' split
  all_goals try simp only [udpAutoAssign_tcp]
  all_goals repeat' split
  all_goals rfl

theorem tcpConnect_ok (ctx : Context) (dest : IPv6Addr) (dport now r i : Nat)
    (hinit : ctx.initialized = true) (hdp : dport ≠ 0)
    (hr : RTNET_FindRoute ctx dest = some r)
    (hc : firstFreeConn ctx.tcp_connections 0 = some i) :
    RTNET_TCP_Connect ctx (some dest) dport true now =
      (.OK, some i,
        { ctx with
          tcp_connections := ctx.tcp_connections.set i
            { zeroConn with
              local_addr := ctx.local_ipv6, remote_addr := dest,
              local_port := ctx.next_ephemeral_port % 2 ^ 16, remote_port := dport,
              state := .ESTABLISHED, last_activity_ms := now % 2 ^ 32,
              in_use := true },
          next_ephemeral_port := (ctx.next_ephemeral_port + 1) % 2 ^ 16 }) := by
  unfold RTNET_TCP_Connect
  rw [if_neg (by simp [hinit]), if_neg (by simp [hdp])]
  simp only [Option.getD_some, hr, hc]

/-- `RTNET_TCP_Connect` leaves the TCP table alone or installs an
`ESTABLISHED`, occupied connection in one slot. -/
theorem tcpConnect_tcp_cases (ctx : Context) (dest : Option IPv6Addr)
    (dport : Nat) (cid : Bool) (now : Nat) :
    (RTNET_TCP_Connect ctx dest dport cid now).2.2.tcp_connections
      = ctx.tcp_connections ∨
    ∃ i conn, conn.in_use = true ∧ conn.state = TCPState.ESTABLISHED ∧
      (RTNET_TCP_Connect ctx dest dport cid now).2.2.tcp_connections
        = ctx.tcp_connections.set i conn := by
  unfold RTNET_TCP_Connect
  dsimp only
  repeat' split
  all_goals try (left; rfl)
  right
  exact ⟨_, _, rfl, rfl, rfl⟩

theorem tcpSend_tcp_cases (ctx : Context) (cid : Nat) (data : Bool)
    (len now : Nat) :
    (RTNET_TCP_Send ctx cid data len now).2.tcp_connections
      = ctx.tcp_connections ∨
    (RTNET_TCP_Send ctx cid data len now).2.tcp_connections
      = ctx.tcp_connections.set cid
          { ctx.tcp_connections.getD cid zeroConn with
            last_activity_ms := now % 2 ^ 32 } := by
  unfold RTNET_TCP_Send
  dsimp only
  repeat' split
  all_goals try (left; rfl)
  right; rfl

theorem tcpClose_tcp_cases (ctx : Context) (cid : Nat) :
    (RTNET_TCP_Close ctx cid).2.tcp_connections = ctx.tcp_connections ∨
    (RTNET_TCP_Close ctx cid).2.tcp_connections
      = ctx.tcp_connections.set cid
          { ctx.tcp_connections.getD cid zeroConn with
            in_use := false, state := TCPState.CLOSED } := by
  unfold RTNET_TCP_Close
  dsimp only
  repeat' split
  all_goals try (left; rfl)
  right; rfl

theorem addRouteGo_zeroHead (dst nh : IPv6Addr) (plen metric now : Nat)
    (rest : List RouteEntry) :
    addRouteGo dst nh plen metric now (zeroRoute :: rest)
      = some ({ destination := dst, next_hop := nh, prefix_len := plen,
                metric := metric, last_used_ms := now % 2 ^ 32,
                valid := true } :: rest) := by
  simp [addRouteGo, zeroRoute]

theorem addRoute_headFree (c : Context) (now : Nat)
    (h : c.routing_table = zeroRoute :: List.replicate 31 zeroRoute) :
    (RTNET_AddRoute c (some linkLocalPrefix) 10 none 1 now).2.routing_table
      = { destination := linkLocalPrefix, next_hop := zeroAddr, prefix_len := 10,
          metric := 1, last_used_ms := now % 2 ^ 32, valid := true }
        :: List.replicate 31 zeroRoute := by
  unfold RTNET_AddRoute
  rw [if_neg (by simp)]
  rw [show ((some linkLocalPrefix).getD zeroAddr) = linkLocalPrefix from rfl,
    show ((none : Option IPv6Addr).getD zeroAddr) = zeroAddr from rfl, h,
    addRouteGo_zeroHead]

theorem init_routing_table (ip : IPv6Addr) (mac : MACAddr) (now : Nat)
    (ctx : Context) :
    (RTNET_Initialize (some ip) (some mac) now ctx).2.routing_table
      = { destination := linkLocalPrefix, next_hop := zeroAddr, prefix_len := 10,
          metric := 1, last_used_ms := now % 2 ^ 32, valid := true }
        :: List.replicate 31 zeroRoute := by
  unfold RTNET_Initialize
  rw [if_neg (by simp)]
  dsimp only
  exact addRoute_headFree _ now rfl

theorem routeAged_valid_iff (now : Nat) (l : List RouteEntry) (j : Nat) :
    ((l.map (ageRoute now)).getD j zeroRoute).valid = true ↔
      ((l.getD j zeroRoute).valid = true ∧
       sub32 now (l.getD j zeroRoute).last_used_ms ≤ 300000) := by
  induction l generalizing j with
  | nil => simp [List.getD, zeroRoute]
  | cons e rest ih =>
    cases j with
    | zero =>
      simp only [List.map, List.getD, List.get?]
      unfold ageRoute
      split
      · rename_i hcond
        simp only [Option.getD_some]
        constructor
        · intro hfalse; simp at hfalse
        · intro ⟨_, hle⟩; omega
      · rename_i hcond
        simp only [Option.getD_some]
        constructor
        · intro hv
          refine ⟨hv, ?_⟩
          by_contra hgt
          exact hcond ⟨hv, by omega⟩
        · intro ⟨hv, _⟩; exact hv
    | succ n =>
      simpa [List.getD, List.get?] using ih n

/-- `RTNET_Initialize` either leaves the context alone or zeroes the TCP
table. -/
theorem init_tcp (ip : Option IPv6Addr) (mac : Option MACAddr) (now : Nat)
    (ctx : Context) :
    (RTNET_Initialize ip mac now ctx).2.tcp_connections = ctx.tcp_connections ∨
    (RTNET_Initialize ip mac now ctx).2.tcp_connections
      = List.replicate RTNET_MAX_TCP_CONNECTIONS zeroConn := by
  unfold RTNET_Initialize
  split
  · left; rfl
  · right
    show (RTNET_AddRoute _ (some linkLocalPrefix) 10 none 1 now).2.tcp_connections = _
    unfold RTNET_AddRoute
    split
    · rfl
    · split <;> rfl

theorem addRoute_tcp (ctx : Context) (dst : Option IPv6Addr) (plen : Nat)
    (nh : Option IPv6Addr) (metric now : Nat) :
    (RTNET_AddRoute ctx dst plen nh metric now).2.tcp_connections
      = ctx.tcp_connections := by
  unfold RTNET_AddRoute
  split
  · rfl
  · split <;> rfl

theorem processRx_tcp (data : Bool) (len : Nat) (ctx : Context) :
    (RTNET_ProcessRxPacket data len ctx).2.tcp_connections
      = ctx.tcp_connections := by
  unfold RTNET_ProcessRxPacket
  repeat' split
  all_goals rfl

/-- `findRouteGo` is the first component of the full loop. -/
theorem findRouteGo_eq_full (dest : IPv6Addr) (l : List RouteEntry) :
    ∀ (i : Nat) (best : Option Nat) (L M : Nat),
    findRouteGo dest l i best L M = (findRouteFull dest l i best L M).1 := by
  induction l with
  | nil => intro i best L M; rfl
  | cons e rest ih =>
    intro i best L M
    unfold findRouteGo findRouteFull
    split
    · exact ih (i + 1) (some i) e.prefix_len e.metric
    · exact ih (i + 1) best L M

theorem keyGE_refl (L M : Nat) : keyGE L M L M := by unfold keyGE; omega

theorem keyGE_trans {a b c d e f : Nat} (h1 : keyGE a b c d)
    (h2 : keyGE c d e f) : keyGE a b e f := by
  unfold keyGE at *; omega

/-- The final key of the loop is at least as good as the initial one. -/
theorem findRouteFull_keyGE (dest : IPv6Addr) (l : List RouteEntry) :
    ∀ (i : Nat) (best : Option Nat) (L M : Nat),
    keyGE (findRouteFull dest l i best L M).2.1
      (findRouteFull dest l i best L M).2.2 L M := by
  induction l with
  | nil => intro i best L M; exact keyGE_refl L M
  | cons e rest ih =>
    intro i best L M
    unfold findRouteFull
    split
    · rename_i h
      refine keyGE_trans (ih (i + 1) (some i) e.prefix_len e.metric) ?_
      have hb := h.2.2
      unfold keyGE; omega
    · exact ih (i + 1) best L M

/-- No valid matching entry of the scanned list beats the final key. -/
theorem findRouteFull_dominates (dest : IPv6Addr) (l : List RouteEntry) :
    ∀ (i : Nat) (best : Option Nat) (L M : Nat) (e : RouteEntry), e ∈ l →
    e.valid = true → RTNET_IPv6_PrefixMatch dest e.destination e.prefix_len = true →
    keyGE (findRouteFull dest l i best L M).2.1
      (findRouteFull dest l i best L M).2.2 e.prefix_len e.metric := by
  induction l with
  | nil => intro i best L M e he; exact absurd he (List.not_mem_nil e)
  | cons f rest ih =>
    intro i best L M e he hv hm
    rcases List.mem_cons.1 he with heq | htail
    · subst heq
      unfold findRouteFull
      split
      · exact findRouteFull_keyGE dest rest (i + 1) (some i) e.prefix_len e.metric
      · rename_i h
        have hnb : ¬ (e.prefix_len > L ∨ (e.prefix_len = L ∧ e.metric < M)) := by
          intro hb; exact h ⟨hv, hm, hb⟩
        refine keyGE_trans (findRouteFull_keyGE dest rest (i + 1) best L M) ?_
        unfold keyGE; omega
    · unfold findRouteFull
      split
      · exact ih (i + 1) (some i) f.prefix_len f.metric e htail hv hm
      · exact ih (i + 1) best L M e htail hv hm

/-- Either the loop returns the inputs unchanged, or the champion is an entry
of the list whose data equals the final key. -/
theorem findRouteFull_origin (dest : IPv6Addr) (l : List RouteEntry) :
    ∀ (i : Nat) (best : Option Nat) (L M : Nat),
    findRouteFull dest l i best L M = (best, L, M) ∨
    ∃ k, k < l.length ∧ (findRouteFull dest l i best L M).1 = some (i + k) ∧
      (l.getD k zeroRoute).valid = true ∧
      RTNET_IPv6_PrefixMatch dest (l.getD k zeroRoute).destination
        (l.getD k zeroRoute).prefix_len = true ∧
      (l.getD k zeroRoute).prefix_len = (findRouteFull dest l i best L M).2.1 ∧
      (l.getD k zeroRoute).metric = (findRouteFull dest l i best L M).2.2 := by
  induction l with
  | nil => intro i best L M; left; rfl
  | cons f rest ih =>
    intro i best L M
    unfold findRouteFull
    split
    · rename_i h
      right
      rcases ih (i + 1) (some i) f.prefix_len f.metric with heq | ⟨k, hk, h1, h2, h3, h4, h5⟩
      · refine ⟨0, by simp, ?_, ?_, ?_, ?_, ?_⟩
        · rw [heq]; simp
        · simpa [List.getD_cons_zero] using h.1
        · simpa [List.getD_cons_zero] using h.2.1
        · rw [heq]; simp [List.getD_cons_zero]
        · rw [heq]; simp [List.getD_cons_zero]
      · refine ⟨k + 1, by simpa using hk, ?_, ?_, ?_, ?_, ?_⟩
        · rw [h1]; congr 1; omega
        · simpa [List.getD_cons_succ] using h2
        · simpa [List.getD_cons_succ] using h3
        · simpa [List.getD_cons_succ] using h4
        · simpa [List.getD_cons_succ] using h5
    · rcases ih (i + 1) best L M with heq | ⟨k, hk, h1, h2, h3, h4, h5⟩
      · left; exact heq
      · right
        refine ⟨k + 1, by simpa using hk, ?_, ?_, ?_, ?_, ?_⟩
        · rw [h1]; congr 1; omega
        · simpa [List.getD_cons_succ] using h2
        · simpa [List.getD_cons_succ] using h3
        · simpa [List.getD_cons_succ] using h4
        · simpa [List.getD_cons_succ] using h5

/-- Once a champion exists, the loop keeps returning a champion. -/
theorem findRouteFull_some_of_best (dest : IPv6Addr) (l : List RouteEntry) :
    ∀ (i j : Nat) (L M : Nat),
    ∃ j', (findRouteFull dest l i (some j) L M).1 = some j' := by
  induction l with
  | nil => intro i j L M; exact ⟨j, rfl⟩
  | cons f rest ih =>
    intro i j L M
    unfold findRouteFull
    split
    · exact ih (i + 1) i f.prefix_len f.metric
    · exact ih (i + 1) j L M

/-- A valid matching entry that beats the running key forces a champion. -/
theorem findRouteFull_some (dest : IPv6Addr) (l : List RouteEntry) :
    ∀ (i : Nat) (best : Option Nat) (L M : Nat) (e : RouteEntry), e ∈ l →
    e.valid = true → RTNET_IPv6_PrefixMatch dest e.destination e.prefix_len = true →
    (e.prefix_len > L ∨ (e.prefix_len = L ∧ e.metric < M)) →
    ∃ j, (findRouteFull dest l i best L M).1 = some j := by
  induction l with
  | nil => intro i best L M e he; exact absurd he (List.not_mem_nil e)
  | cons f rest ih =>
    intro i best L M e he hv hm hb
    rcases List.mem_cons.1 he with heq | htail
    · subst heq
      unfold findRouteFull
      rw [if_pos ⟨hv, hm, hb⟩]
      exact findRouteFull_some_of_best dest rest (i + 1) i e.prefix_len e.metric
    · unfold findRouteFull
      split
      · exact findRouteFull_some_of_best dest rest (i + 1) i f.prefix_len f.metric
      · exact ih (i + 1) best L M e htail hv hm hb

theorem prefixMatch_zero (addr pfx : IPv6Addr) :
    RTNET_IPv6_PrefixMatch addr pfx 0 = true := rfl

theorem prefixMatch_full (addr pfx : IPv6Addr) (ha : addr.length = 16)
    (hp : pfx.length = 16) :
    (RTNET_IPv6_PrefixMatch addr pfx 128 = true ↔ addr = pfx) := by
  have hta : addr.take 16 = addr := List.take_of_length_le (by omega)
  have htp : pfx.take 16 = pfx := List.take_of_length_le (by omega)
  unfold RTNET_IPv6_PrefixMatch
  rw [if_neg (by omega)]
  rw [show (128 / 8 : Nat) = 16 from rfl, show (128 % 8 : Nat) = 0 from rfl]
  dsimp only
  rw [hta, htp]
  constructor
  · intro h
    by_cases heq : addr = pfx
    · exact heq
    · rw [if_pos heq] at h
      exact absurd h (by simp)
  · intro h
    rw [if_neg (by simp [h]), if_neg (by omega)]

theorem connectCloseStep_spec (s : Context) (k : Nat) (h : C3inv k s) :
    C3inv (k + 1) (connectCloseStep s) := by
  obtain ⟨hinit, htab, hip, ⟨c0, hc0, htcp⟩, hport⟩ := h
  have hr : RTNET_FindRoute s demoDest = some 0 := by
    rw [findRoute_eq_of_table s demoCtx htab demoDest]; decide
  have hfc : firstFreeConn s.tcp_connections 0 = some 0 := by
    rw [htcp]; simp [firstFreeConn, hc0]
  unfold connectCloseStep
  rw [tcpConnect_ok s demoDest 80 0 0 0 hinit (by omega) hr hfc]
  rw [htcp]
  unfold RTNET_TCP_Close
  rw [if_neg (by decide)]
  dsimp only [List.set]
  simp only [List.getD_cons_zero]
  rw [if_neg (by simp)]
  refine ⟨hinit, htab, hip, ?_, ?_⟩
  · exact ⟨_, rfl, rfl⟩
  · show (s.next_ephemeral_port + 1) % 2 ^ 16 = (49152 + (k + 1)) % 65536
    rw [hport]
    have h16 : (2 : Nat) ^ 16 = 65536 := by norm_num
    rw [h16]
    omega

theorem connectClose_iter (k : Nat) : C3inv k (connectCloseStep^[k] demoCtx) := by
  induction k with
  | zero =>
    refine ⟨by decide, rfl, rfl, ⟨zeroConn, by decide, by decide⟩, by decide⟩
  | succ n ih =>
    rw [Function.iterate_succ_apply']
    exact connectCloseStep_spec _ n ih

theorem connInv_zero : ConnInv zeroConn :=
  ⟨fun h => by simp [zeroConn] at h, fun _ => rfl⟩

/-- The timeout sweep preserves the per-slot invariant. -/
theorem connInv_ageConn (now : Nat) (c : TCPConnection) (h : ConnInv c) :
    ConnInv (ageConn now c) := by
  unfold ageConn
  split
  · exact ⟨fun hx => Bool.noConfusion hx, fun _ => rfl⟩
  · exact h

/-- The per-slot invariant holds in every reachable context. -/
theorem reachable_connInv (s : Context) (h : Reachable s) :
    ∀ c ∈ s.tcp_connections, ConnInv c := by
  induction h with
  | init ip mac now =>
    intro c hc
    have hz : c = zeroConn := by
      rcases init_tcp (some ip) (some mac) now zeroCtx with heq | heq <;>
        rw [heq] at hc
      · exact List.eq_of_mem_replicate
          (show c ∈ List.replicate RTNET_MAX_TCP_CONNECTIONS zeroConn from hc)
      · exact List.eq_of_mem_replicate hc
    rw [hz]; exact connInv_zero
  | step o hs ih =>
    rename_i s'
    intro c hc
    match o with
    | .reinit ip mac now =>
      rw [show applyOp (Op.reinit ip mac now) s'
          = (RTNET_Initialize ip mac now s').2 from rfl] at hc
      rcases init_tcp ip mac now s' with heq | heq <;> rw [heq] at hc
      · exact ih c hc
      · have hz : c = zeroConn := List.eq_of_mem_replicate hc
        rw [hz]; exact connInv_zero
    | .addRoute dst plen nh metric now =>
      rw [show applyOp (Op.addRoute dst plen nh metric now) s'
          = (RTNET_AddRoute s' dst plen nh metric now).2 from rfl,
        addRoute_tcp] at hc
      exact ih c hc
    | .udpSend dest dport sport payload plen qos =>
      rw [show applyOp (Op.udpSend dest dport sport payload plen qos) s'
          = (RTNET_UDP_Send s' dest dport sport payload plen qos).2 from rfl,
        udpSend_tcp] at hc
      exact ih c hc
    | .tcpConnect dest dport cid now =>
      rcases tcpConnect_tcp_cases s' dest dport cid now with heq | ⟨i, conn, h1, h2, heq⟩ <;>
        rw [show applyOp (Op.tcpConnect dest dport cid now) s'
          = (RTNET_TCP_Connect s' dest dport cid now).2.2 from rfl, heq] at hc
      · exact ih c hc
      · rcases mem_set_cases _ _ _ _ hc with hm | hm
        · exact ih c hm
        · subst hm
          exact ⟨fun _ => h2, fun hf => by rw [h1] at hf; cases hf⟩
    | .tcpSend cid data len now =>
      rcases tcpSend_tcp_cases s' cid data len now with heq | heq <;>
        rw [show applyOp (Op.tcpSend cid data len now) s'
          = (RTNET_TCP_Send s' cid data len now).2 from rfl, heq] at hc
      · exact ih c hc
      · rcases mem_set_cases _ _ _ _ hc with hm | hm
        · exact ih c hm
        · subst hm
          have hbase : ConnInv (s'.tcp_connections.getD cid zeroConn) := by
            rcases getD_mem_or s'.tcp_connections cid zeroConn with h | h
            · exact ih _ h
            · rw [h]; exact connInv_zero
          exact hbase
    | .tcpClose cid =>
      rcases tcpClose_tcp_cases s' cid with heq | heq <;>
        rw [show applyOp (Op.tcpClose cid) s'
          = (RTNET_TCP_Close s' cid).2 from rfl, heq] at hc
      · exact ih c hc
      · rcases mem_set_cases _ _ _ _ hc with hm | hm
        · exact ih c hm
        · subst hm
          exact ⟨fun h => Bool.noConfusion h, fun _ => rfl⟩
    | .processRx data len =>
      rw [show applyOp (Op.processRx data len) s'
          = (RTNET_ProcessRxPacket data len s').2 from rfl,
        processRx_tcp] at hc
      exact ih c hc
    | .periodic now =>
      rw [show (applyOp (Op.periodic now) s').tcp_connections
          = s'.tcp_connections.map (ageConn now) from rfl] at hc
      rcases List.mem_map.1 hc with ⟨a, ha, rfl⟩
      exact connInv_ageConn now a (ih a ha)
    | .mdnsQuery name res =>
      rw [show applyOp (Op.mdnsQuery name res) s'
          = (RTNET_mDNS_Query s' name res).2 from rfl] at hc
      have : (RTNET_mDNS_Query s' name res).2.tcp_connections
          = s'.tcp_connections := by
        unfold RTNET_mDNS_Query; split <;> rfl
      rw [this] at hc
      exact ih c hc
    | .mdnsAnnounce name port ttl =>
      rw [show applyOp (Op.mdnsAnnounce name port ttl) s'
          = (RTNET_mDNS_Announce s' name port ttl).2 from rfl] at hc
      have : (RTNET_mDNS_Announce s' name port ttl).2.tcp_connections
          = s'.tcp_connections := by
        unfold RTNET_mDNS_Announce; split <;> rfl
      rw [this] at hc
      exact ih c hc
    | .getStats ptr =>
      rw [show applyOp (Op.getStats ptr) s'
          = (RTNET_GetStatistics s' ptr).2.2 from rfl] at hc
      have : (RTNET_GetStatistics s' ptr).2.2.tcp_connections
          = s'.tcp_connections := by
        unfold RTNET_GetStatistics; split <;> rfl
      rw [this] at hc
      exact ih c hc

/-! ## The claims -/

/-- C1 counterexample: from the freshly initialized demo context with its link-local route, a successful udp_send returns OK yet leaves TX buffer 0 with in_use = true after the call has completed, although no live operation owns it — refuting the claim that the buffer is handed to the hardware hook and freed on return. -/
theorem C1_cex :
    (RTNET_UDP_Send demoCtx (some demoDest) 7 0 true 100 2).1 = .OK ∧
    ((RTNET_UDP_Send demoCtx (some demoDest) 7 0 true 100
        2).2.tx_buffers.getD 0 zeroBuffer).in_use = true := by decide

/-- C1 (amended): a udp_send whose parameter guards pass, with a route to the destination and a free TX buffer at index i, returns OK, increments tx_packets, and leaves buffer i marked in_use = true after the call returns — this code neither invokes the hardware transmit hook nor frees the buffer. -/
theorem C1_thm (ctx : Context) (dest : IPv6Addr) (dport sport plen qos r i : Nat)
    (hinit : ctx.initialized = true) (hdp : dport ≠ 0)
    (h1 : 1 ≤ plen) (h2 : plen ≤ 1500)
    (hr : RTNET_FindRoute ctx dest = some r)
    (hb : firstFreeBuf ctx.tx_buffers 0 = some i) :
    (RTNET_UDP_Send ctx (some dest) dport sport true plen qos).1 = .OK ∧
    ((RTNET_UDP_Send ctx (some dest) dport sport true plen
        qos).2.tx_buffers.getD i zeroBuffer).in_use = true ∧
    (RTNET_UDP_Send ctx (some dest) dport sport true plen qos).2.stats.tx_packets
        = inc32 ctx.stats.tx_packets := by
  rw [udpSend_ok ctx dest dport sport plen qos r i hinit hdp h1 h2 hr hb]
  have hi : i < ctx.tx_buffers.length := by
    have := firstFreeBuf_lt ctx.tx_buffers 0 i hb
    omega
  refine ⟨rfl, ?_, rfl⟩
  show ((ctx.tx_buffers.set i
      { ctx.tx_buffers.getD i zeroBuffer with
        in_use := true, length := plen, qos_priority := qos }).getD i
      zeroBuffer).in_use = true
  rw [getD_set_self _ i _ _ hi]

/-- C1 witness: the amended theorem applied at the concrete demo context. -/
theorem C1_witness :
    (RTNET_UDP_Send demoCtx (some demoDest) 9 5 true 42 1).1 = .OK ∧
    ((RTNET_UDP_Send demoCtx (some demoDest) 9 5 true 42
        1).2.tx_buffers.getD 0 zeroBuffer).in_use = true ∧
    (RTNET_UDP_Send demoCtx (some demoDest) 9 5 true 42 1).2.stats.tx_packets
        = inc32 demoCtx.stats.tx_packets :=
  C1_thm demoCtx demoDest 9 5 42 1 0 0 (by decide) (by decide) (by decide)
    (by decide) (by decide) (by decide)

/-- C2 counterexample: initialization inserts the link-local route fe80::/10 with metric 1 at slot 0, and a single periodic_task call 300001 ms later invalidates it — refuting the claim that the link-local route is never aged. -/
theorem C2_cex :
    (demoCtx.routing_table.getD 0 zeroRoute).destination = linkLocalPrefix ∧
    (demoCtx.routing_table.getD 0 zeroRoute).prefix_len = 10 ∧
    (demoCtx.routing_table.getD 0 zeroRoute).metric = 1 ∧
    (demoCtx.routing_table.getD 0 zeroRoute).valid = true ∧
    ((RTNET_PeriodicTask 300001 demoCtx).routing_table.getD 0 zeroRoute).valid
      = false := by decide

/-- C2 (amended): initialization does insert the fe80::/10 metric-1 route at slot 0, and the periodic ager applies the uniform 300000 ms rule to every route entry, the link-local one included: an entry is valid after periodic_task at time now exactly when it was valid and unused for at most 300000 ms. -/
theorem C2_thm :
    (∀ (ip : IPv6Addr) (mac : MACAddr) (now : Nat) (ctx : Context),
      (RTNET_Initialize (some ip) (some mac) now ctx).2.routing_table.getD 0 zeroRoute
        = { destination := linkLocalPrefix, next_hop := zeroAddr, prefix_len := 10,
            metric := 1, last_used_ms := now % 2 ^ 32, valid := true }) ∧
    (∀ (ctx : Context) (now j : Nat),
      (((RTNET_PeriodicTask now ctx).routing_table.getD j zeroRoute).valid = true ↔
        ((ctx.routing_table.getD j zeroRoute).valid = true ∧
         sub32 now (ctx.routing_table.getD j zeroRoute).last_used_ms ≤ 300000))) := by
  constructor
  · intro ip mac now ctx
    rw [init_routing_table]
    rfl
  · intro ctx now j
    exact routeAged_valid_iff now ctx.routing_table j

/-- C2 witness: the amended theorem at concrete inputs — the freshly inserted table head, and a periodic_task at 300000 ms that keeps the just-stamped route valid. -/
theorem C2_witness :
    (RTNET_Initialize (some demoIp) (some demoMac) 0 zeroCtx).2.routing_table.getD 0
        zeroRoute
      = { destination := linkLocalPrefix, next_hop := zeroAddr, prefix_len := 10,
          metric := 1, last_used_ms := 0, valid := true } ∧
    ((RTNET_PeriodicTask 300000 demoCtx).routing_table.getD 0 zeroRoute).valid
      = true := by
  constructor
  · exact C2_thm.1 demoIp demoMac 0 zeroCtx
  · exact (C2_thm.2 demoCtx 300000 0).2 (by decide)

/-- C3 (code bug), evaluated at the failing input: after 16384 connect/close pairs from the fresh demo context, the tcp_connect path — which lacks the wrap check udp_send has — has driven next_ephemeral_port to 0 (the last connect yielded port 0xFFFF and stored counter 0), and the next tcp_connect succeeds while assigning local port 0, violating the documented 49152-65535 ephemeral range and the claimed wrap to 49152. -/
theorem C3_bug :
    (connectCloseStep^[16384] demoCtx).next_ephemeral_port = 0 ∧
    (RTNET_TCP_Connect (connectCloseStep^[16384] demoCtx) (some demoDest) 80 true
        0).1 = .OK ∧
    ((RTNET_TCP_Connect (connectCloseStep^[16384] demoCtx) (some demoDest) 80 true
        0).2.2.tcp_connections.getD 0 zeroConn).local_port = 0 := by
  obtain ⟨hinit, htab, hip, ⟨c0, hc0, htcp⟩, hport⟩ := connectClose_iter 16384
  have hp : (connectCloseStep^[16384] demoCtx).next_ephemeral_port = 0 := by
    rw [hport]
  have hr : RTNET_FindRoute (connectCloseStep^[16384] demoCtx) demoDest = some 0 := by
    rw [findRoute_eq_of_table _ demoCtx htab demoDest]; decide
  have hfc : firstFreeConn (connectCloseStep^[16384] demoCtx).tcp_connections 0
      = some 0 := by
    rw [htcp]; simp [firstFreeConn, hc0]
  rw [tcpConnect_ok _ demoDest 80 0 0 0 hinit (by omega) hr hfc]
  refine ⟨hp, rfl, ?_⟩
  rw [htcp]
  dsimp only [List.set]
  rw [List.getD_cons_zero]
  rw [hp]
  exact Nat.zero_mod _

/-- C4 counterexample: a routing table holding a single valid entry with prefix_len 0 and metric 65535 — the entry matches the destination, yet RTNET_FindRoute returns no route, because such an entry can never beat the scan's initial accumulator (best_prefix_len = 0, best_metric = UINT16_MAX). -/
theorem C4_cex :
    (c4Ctx.routing_table.getD 0 zeroRoute).valid = true ∧
    RTNET_IPv6_PrefixMatch demoDest
      (c4Ctx.routing_table.getD 0 zeroRoute).destination
      (c4Ctx.routing_table.getD 0 zeroRoute).prefix_len = true ∧
    RTNET_FindRoute c4Ctx demoDest = none := by decide

/-- C4 (amended): whenever some valid matching entry has a non-zero prefix length or a metric below 65535, route lookup returns a valid entry whose prefix matches the destination and which, among all valid matching entries, has the longest prefix length with ties broken by lower metric; moreover a prefix of length 0 matches every address and a prefix of length 128 matches exactly the address itself. -/
theorem C4_thm (ctx : Context) (dest : IPv6Addr) :
    ((∃ e ∈ ctx.routing_table, e.valid = true ∧
        RTNET_IPv6_PrefixMatch dest e.destination e.prefix_len = true ∧
        (0 < e.prefix_len ∨ e.metric < 65535)) →
      ∃ j, RTNET_FindRoute ctx dest = some j ∧ j < ctx.routing_table.length ∧
        (ctx.routing_table.getD j zeroRoute).valid = true ∧
        RTNET_IPv6_PrefixMatch dest
          (ctx.routing_table.getD j zeroRoute).destination
          (ctx.routing_table.getD j zeroRoute).prefix_len = true ∧
        ∀ e ∈ ctx.routing_table, e.valid = true →
          RTNET_IPv6_PrefixMatch dest e.destination e.prefix_len = true →
          (e.prefix_len < (ctx.routing_table.getD j zeroRoute).prefix_len ∨
           (e.prefix_len = (ctx.routing_table.getD j zeroRoute).prefix_len ∧
            (ctx.routing_table.getD j zeroRoute).metric ≤ e.metric))) ∧
    (∀ (addr pfx : IPv6Addr), RTNET_IPv6_PrefixMatch addr pfx 0 = true) ∧
    (∀ (addr pfx : IPv6Addr), addr.length = 16 → pfx.length = 16 →
      (RTNET_IPv6_PrefixMatch addr pfx 128 = true ↔ addr = pfx)) := by
  refine ⟨?_, prefixMatch_zero, prefixMatch_full⟩
  rintro ⟨e, he, hv, hm, hkey⟩
  have hbeat : e.prefix_len > 0 ∨ (e.prefix_len = 0 ∧ e.metric < 65535) := by omega
  obtain ⟨j0, hj0⟩ :=
    findRouteFull_some dest ctx.routing_table 0 none 0 65535 e he hv hm hbeat
  rcases findRouteFull_origin dest ctx.routing_table 0 none 0 65535 with
    horig | ⟨k, hk, h1, h2, h3, h4, h5⟩
  · rw [horig] at hj0
    exact absurd hj0 (by simp)
  · refine ⟨k, ?_, hk, h2, h3, ?_⟩
    · unfold RTNET_FindRoute
      rw [findRouteGo_eq_full, h1]
      congr 1
      omega
    · intro f hf hfv hfm
      have hd := findRouteFull_dominates dest ctx.routing_table 0 none 0 65535
        f hf hfv hfm
      unfold keyGE at hd
      omega

/-- C4 witness: the amended theorem applied at the demo context and a link-local destination, whose winning entry exists. -/
theorem C4_witness :
    ∃ j, RTNET_FindRoute demoCtx demoDest = some j ∧
      j < demoCtx.routing_table.length ∧
      (demoCtx.routing_table.getD j zeroRoute).valid = true ∧
      RTNET_IPv6_PrefixMatch demoDest
        (demoCtx.routing_table.getD j zeroRoute).destination
        (demoCtx.routing_table.getD j zeroRoute).prefix_len = true ∧
      ∀ e ∈ demoCtx.routing_table, e.valid = true →
        RTNET_IPv6_PrefixMatch demoDest e.destination e.prefix_len = true →
        (e.prefix_len < (demoCtx.routing_table.getD j zeroRoute).prefix_len ∨
         (e.prefix_len = (demoCtx.routing_table.getD j zeroRoute).prefix_len ∧
          (demoCtx.routing_table.getD j zeroRoute).metric ≤ e.metric)) :=
  (C4_thm demoCtx demoDest).1 (by decide)

/-- C5 counterexample: tcp_connect at time 1000 performs a successful route lookup won by the link-local route, yet that entry's last-used stamp stays 0 rather than the current time — refuting the claim that the winner's timestamp is updated after a successful lookup. -/
theorem C5_cex :
    (RTNET_TCP_Connect demoCtx (some demoDest) 80 true 1000).1 = .OK ∧
    RTNET_FindRoute demoCtx demoDest = some 0 ∧
    ((RTNET_TCP_Connect demoCtx (some demoDest) 80 true
        1000).2.2.routing_table.getD 0 zeroRoute).last_used_ms = 0 ∧
    ((RTNET_TCP_Connect demoCtx (some demoDest) 80 true
        1000).2.2.routing_table.getD 0 zeroRoute).last_used_ms ≠ 1000 := by decide

/-- C5 (amended): route lookup never writes the routing table: udp_send and tcp_connect, the operations that perform lookups, leave every route entry — the winner's last-used stamp included — exactly unchanged. -/
theorem C5_thm (ctx : Context) (dest : Option IPv6Addr)
    (dport sport : Nat) (pl cid : Bool) (plen qos now : Nat) :
    (RTNET_UDP_Send ctx dest dport sport pl plen qos).2.routing_table
        = ctx.routing_table ∧
    (RTNET_TCP_Connect ctx dest dport cid now).2.2.routing_table
        = ctx.routing_table := by
  constructor
  · unfold RTNET_UDP_Send
    repeat' split
    all_goals try simp only [udpAutoAssign_routing_table]
    all_goals repeat' split
    all_goals rfl
  · unfold RTNET_TCP_Connect
    repeat' split
    all_goals try rfl
    all_goals dsimp only
    all_goals repeat' split
    all_goals rfl

/-- C6 counterexample: a successful tcp_connect leaves slot 0 in state ESTABLISHED, which is not the SYN_SENT state the claim requires. -/
theorem C6_cex :
    (RTNET_TCP_Connect demoCtx (some demoDest) 80 true 5).1 = .OK ∧
    ((RTNET_TCP_Connect demoCtx (some demoDest) 80 true
        5).2.2.tcp_connections.getD 0 zeroConn).state = .ESTABLISHED ∧
    TCPState.ESTABLISHED ≠ TCPState.SYN_SENT := by decide

/-- C6 (amended): with a free slot i, a route to dst, and valid arguments, tcp_connect populates slot i with the local and remote endpoints, sets the local port from the ephemeral counter, moves the connection directly from CLOSED to ESTABLISHED (no SYN_SENT state, no SYN emission), advances the counter, and returns the slot index as the handle. -/
theorem C6_thm (ctx : Context) (dest : IPv6Addr) (dport now r i : Nat)
    (hinit : ctx.initialized = true) (hdp : dport ≠ 0)
    (hr : RTNET_FindRoute ctx dest = some r)
    (hc : firstFreeConn ctx.tcp_connections 0 = some i) :
    (RTNET_TCP_Connect ctx (some dest) dport true now).1 = .OK ∧
    (RTNET_TCP_Connect ctx (some dest) dport true now).2.1 = some i ∧
    ((RTNET_TCP_Connect ctx (some dest) dport true
        now).2.2.tcp_connections.getD i zeroConn)
      = { zeroConn with
          local_addr := ctx.local_ipv6, remote_addr := dest,
          local_port := ctx.next_ephemeral_port % 2 ^ 16, remote_port := dport,
          state := .ESTABLISHED, last_activity_ms := now % 2 ^ 32,
          in_use := true } ∧
    (RTNET_TCP_Connect ctx (some dest) dport true now).2.2.next_ephemeral_port
      = (ctx.next_ephemeral_port + 1) % 2 ^ 16 := by
  have hi : i < ctx.tcp_connections.length := by
    have := firstFreeConn_lt ctx.tcp_connections 0 i hc
    omega
  rw [tcpConnect_ok ctx dest dport now r i hinit hdp hr hc]
  refine ⟨rfl, rfl, ?_, rfl⟩
  exact getD_set_self _ i _ _ hi

/-- C6 witness: the amended theorem applied at the concrete demo context. -/
theorem C6_witness :
    (RTNET_TCP_Connect demoCtx (some demoDest) 80 true 5).1 = .OK ∧
    (RTNET_TCP_Connect demoCtx (some demoDest) 80 true 5).2.1 = some 0 ∧
    ((RTNET_TCP_Connect demoCtx (some demoDest) 80 true
        5).2.2.tcp_connections.getD 0 zeroConn)
      = { zeroConn with
          local_addr := demoCtx.local_ipv6, remote_addr := demoDest,
          local_port := demoCtx.next_ephemeral_port % 2 ^ 16, remote_port := 80,
          state := .ESTABLISHED, last_activity_ms := 5 % 2 ^ 32,
          in_use := true } ∧
    (RTNET_TCP_Connect demoCtx (some demoDest) 80 true 5).2.2.next_ephemeral_port
      = (demoCtx.next_ephemeral_port + 1) % 2 ^ 16 :=
  C6_thm demoCtx demoDest 80 5 0 0 (by decide) (by decide) (by decide) (by decide)

/-- C7 counterexample: a 62-byte frame makes process_rx return the checksum error kind, but checksum_errors stays 0 — the counter the claim says is incremented never moves in this code. -/
theorem C7_cex :
    (RTNET_ProcessRxPacket true 62 demoCtx).1 = .CHECKSUM ∧
    (RTNET_ProcessRxPacket true 62 demoCtx).2.stats.checksum_errors
        = demoCtx.stats.checksum_errors ∧
    demoCtx.stats.checksum_errors = 0 := by decide

/-- C7 (amended): every frame with data present and length at least 54 makes process_rx return the checksum error kind, increment rx_packets, and leave checksum_errors unchanged. -/
theorem C7_thm (ctx : Context) (len : Nat) (h : 54 ≤ len) :
    (RTNET_ProcessRxPacket true len ctx).1 = .CHECKSUM ∧
    (RTNET_ProcessRxPacket true len ctx).2.stats.checksum_errors
        = ctx.stats.checksum_errors ∧
    (RTNET_ProcessRxPacket true len ctx).2.stats.rx_packets
        = inc32 ctx.stats.rx_packets := by
  unfold RTNET_ProcessRxPacket
  rw [if_neg (by simp; omega), if_neg (by omega)]
  exact ⟨rfl, rfl, rfl⟩

/-- C7 witness: the amended theorem applied at the zero context with a 62-byte frame. -/
theorem C7_witness :
    (RTNET_ProcessRxPacket true 62 zeroCtx).1 = .CHECKSUM ∧
    (RTNET_ProcessRxPacket true 62 zeroCtx).2.stats.checksum_errors
        = zeroCtx.stats.checksum_errors ∧
    (RTNET_ProcessRxPacket true 62 zeroCtx).2.stats.rx_packets
        = inc32 zeroCtx.stats.rx_packets :=
  C7_thm zeroCtx 62 (by decide)

/-- C8: udp_send returns invalid_param exactly when the context is uninitialized, a pointer argument is absent, dport is 0, or the payload length is 0 or above the 1500-byte MTU; and with a matching route and a free TX buffer, payload lengths 1 and 1500 both succeed while 1501 fails with invalid_param. -/
theorem C8_thm (ctx : Context) (dest : Option IPv6Addr) (dport sport : Nat)
    (pl : Bool) (plen qos : Nat) :
    ((RTNET_UDP_Send ctx dest dport sport pl plen qos).1 = .INVALID_PARAM ↔
      (ctx.initialized = false ∨ dest = none ∨ pl = false ∨ dport = 0 ∨
       plen = 0 ∨ plen > RTNET_MTU_SIZE)) ∧
    (∀ (d : IPv6Addr) (r i : Nat), ctx.initialized = true → dport ≠ 0 →
      RTNET_FindRoute ctx d = some r → firstFreeBuf ctx.tx_buffers 0 = some i →
      ((RTNET_UDP_Send ctx (some d) dport sport true 1 qos).1 = .OK ∧
       (RTNET_UDP_Send ctx (some d) dport sport true 1500 qos).1 = .OK ∧
       (RTNET_UDP_Send ctx (some d) dport sport true 1501 qos).1
          = .INVALID_PARAM)) := by
  refine ⟨udpSend_invalid_iff ctx dest dport sport pl plen qos, ?_⟩
  intro d r i hinit hdp hr hb
  refine ⟨?_, ?_, ?_⟩
  · rw [udpSend_ok ctx d dport sport 1 qos r i hinit hdp (by omega) (by omega) hr hb]
  · rw [udpSend_ok ctx d dport sport 1500 qos r i hinit hdp (by omega) (by omega) hr hb]
  · exact (udpSend_invalid_iff ctx (some d) dport sport true 1501 qos).2
      (by right; right; right; right; right; simp [RTNET_MTU_SIZE])

/-- C8 witness: the theorem applied at the concrete demo context, its boundary part discharged with the link-local route and the free buffer at index 0. -/
theorem C8_witness :
    ((RTNET_UDP_Send demoCtx (some demoDest) 3 7 true 0 2).1 = .INVALID_PARAM ↔
      (demoCtx.initialized = false ∨ (some demoDest : Option IPv6Addr) = none ∨
       (true : Bool) = false ∨ (3:Nat) = 0 ∨ (0:Nat) = 0 ∨
       (0:Nat) > RTNET_MTU_SIZE)) ∧
    ((RTNET_UDP_Send demoCtx (some demoDest) 3 7 true 1 2).1 = .OK ∧
     (RTNET_UDP_Send demoCtx (some demoDest) 3 7 true 1500 2).1 = .OK ∧
     (RTNET_UDP_Send demoCtx (some demoDest) 3 7 true 1501 2).1
        = .INVALID_PARAM) := by
  have h := C8_thm demoCtx (some demoDest) 3 7 true 0 2
  exact ⟨h.1, h.2 demoDest 0 0 (by decide) (by decide) (by decide) (by decide)⟩

/-- C9: in every context reachable from a fresh initialization through the public operations, every TCP slot with in_use = true is in state ESTABLISHED, and no slot is ever observed in SYN_SENT, SYN_RCVD, FIN_WAIT, CLOSE_WAIT, CLOSING or TIME_WAIT. -/
theorem C9_thm (s : Context) (h : Reachable s) :
    ∀ c ∈ s.tcp_connections,
      (c.in_use = true → c.state = TCPState.ESTABLISHED) ∧
      c.state ≠ TCPState.SYN_SENT ∧ c.state ≠ TCPState.SYN_RCVD ∧
      c.state ≠ TCPState.FIN_WAIT ∧ c.state ≠ TCPState.CLOSE_WAIT ∧
      c.state ≠ TCPState.CLOSING ∧ c.state ≠ TCPState.TIME_WAIT := by
  intro c hc
  obtain ⟨h1, h2⟩ := reachable_connInv s h c hc
  have hcase : c.state = TCPState.ESTABLISHED ∨ c.state = TCPState.CLOSED := by
    cases hu : c.in_use
    · right; exact h2 hu
    · left; exact h1 hu
  refine ⟨h1, ?_, ?_, ?_, ?_, ?_, ?_⟩ <;>
    rcases hcase with h3 | h3 <;> rw [h3] <;> intro hx <;> cases hx

/-- C9 witness: the theorem applied at the freshly initialized demo context and its slot 0. -/
theorem C9_witness :
    (zeroConn.in_use = true → zeroConn.state = TCPState.ESTABLISHED) ∧
    zeroConn.state ≠ TCPState.SYN_SENT ∧ zeroConn.state ≠ TCPState.SYN_RCVD ∧
    zeroConn.state ≠ TCPState.FIN_WAIT ∧ zeroConn.state ≠ TCPState.CLOSE_WAIT ∧
    zeroConn.state ≠ TCPState.CLOSING ∧ zeroConn.state ≠ TCPState.TIME_WAIT :=
  C9_thm (RTNET_Initialize (some demoIp) (some demoMac) 0 zeroCtx).2
    (Reachable.init demoIp demoMac 0) zeroConn (by decide)

/-- C10: every process_rx call with a non-null data pointer and length at least 1 advances rx_packets by exactly one (a uint32 increment), including frames shorter than 54 bytes, which are then rejected with invalid_param after the counter update. -/
theorem C10_thm (ctx : Context) (len : Nat) (h : 1 ≤ len) :
    (RTNET_ProcessRxPacket true len ctx).2.stats.rx_packets
        = inc32 ctx.stats.rx_packets ∧
    (len < 54 → (RTNET_ProcessRxPacket true len ctx).1 = .INVALID_PARAM) := by
  have h0 : len ≠ 0 := by omega
  unfold RTNET_ProcessRxPacket
  rw [if_neg (by simp [h0])]
  refine ⟨?_, fun hlt => ?_⟩
  · split <;> rfl
  · rw [if_pos (by omega)]

/-- C10 witness: the theorem applied at the zero context with a 10-byte frame. -/
theorem C10_witness :
    (RTNET_ProcessRxPacket true 10 zeroCtx).2.stats.rx_packets
        = inc32 zeroCtx.stats.rx_packets ∧
    ((10:Nat) < 54 → (RTNET_ProcessRxPacket true 10 zeroCtx).1 = .INVALID_PARAM) :=
  C10_thm zeroCtx 10 (by decide)

end RTNet
